import Mathlib

/-!
Verification of the request-orchestration pipeline of the NL-SQL assistant:
the query enhancer (query_enhancer.py), the bounded in-memory metrics store
(metrics.py), the structured logger (logger.py), the trace context (tracer.py)
and the orchestrator (orchestrator.py), embedded shallowly as pure Lean
functions with explicit state passing.  Clock reads (time.time,
datetime.now, date.today) are passed in as explicit parameters; the
process-global metrics collector singleton is threaded as a state component.
-/

/-- Python str.strip with no argument: remove leading and trailing
whitespace characters. -/
def pyStrip (s : String) : String :=
  String.mk (((s.data.dropWhile Char.isWhitespace).reverse.dropWhile Char.isWhitespace).reverse)

/-- Python str.lower, restricted to ASCII letters (the repository only feeds
it English text). -/
def pyLower (s : String) : String :=
  String.mk (s.data.map Char.toLower)

/-- Python str.split with no argument: split on runs of whitespace, with no
empty tokens produced. -/
def pySplit (s : String) : List String :=
  ((s.data.splitOnP Char.isWhitespace).map String.mk).filter (fun t => t ≠ "")

/-- Containment of one character list in another, at any position: the
recursion tries every suffix of the haystack. -/
def charsContain (needle : List Char) : List Char → Bool
  | [] => needle.isPrefixOf []
  | c :: rest => needle.isPrefixOf (c :: rest) || charsContain needle rest

/-- Python substring test, needle in hay. -/
def pyInStr (hay needle : String) : Bool :=
  charsContain needle.toList hay.toList

/-- Calendar date (datetime.date): year, month, day. -/
structure Date where
  year : Nat
  month : Nat
  day : Nat
deriving DecidableEq

/-- Zero-pad the decimal rendering of a number to a given width. -/
def padZero (width : Nat) (n : Nat) : String :=
  let s := toString n
  String.mk (List.replicate (width - s.length) '0') ++ s

/-- Python date.isoformat: YYYY-MM-DD. -/
def Date.isoformat (d : Date) : String :=
  padZero 4 d.year ++ "-" ++ padZero 2 d.month ++ "-" ++ padZero 2 d.day

/-- The fixed abbreviation table of query_enhancer.py. -/
def ABBREVIATIONS : List (String × String) :=
  [("rev", "revenue"), ("qty", "quantity"), ("avg", "average")]

/-- enhance_query from query_enhancer.py.  The reference date parameter
models the today argument (defaulted to date.today() at the call site, an
ambient clock read made explicit here).  As a Lean function it is pure, so
for fixed query and date the result is identical on every call. -/
def enhance_query (query : String) (today : Date) : String :=
  let normalized := pyStrip query
  let lowered := pyLower normalized
  let tokens := pySplit lowered
  let expanded_tokens := tokens.map (fun token => (List.lookup token ABBREVIATIONS).getD token)
  let expanded := String.intercalate " " expanded_tokens
  let date_keywords := ["date", "time", "today", "yesterday", "week", "month", "year", "ago", "recent", "latest", "last"]
  let needs_date_context := date_keywords.any (fun keyword => pyInStr expanded keyword)
  if needs_date_context then
    expanded ++ ". (Current date is " ++ today.isoformat ++ ")"
  else
    expanded

/-- Spec-side reference definition, written from the words of spec section
4.2: trim surrounding whitespace, case-fold to lowercase, split on
whitespace into tokens, replace any token in the fixed abbreviation table
with its expansion, rejoin tokens with single spaces.  This is the
transformed base text before the optional date clause. -/
def specTransformedText (question : String) : String :=
  let trimmed := pyStrip question
  let folded := pyLower trimmed
  let tokens := pySplit folded
  let replaced := tokens.map (fun t =>
    if t = "rev" then "revenue"
    else if t = "qty" then "quantity"
    else if t = "avg" then "average"
    else t)
  String.intercalate " " replaced

/-- Spec-side reference predicate: the transformed text contains at least
one of the fixed set of temporal keywords. -/
def specNeedsDateClause (question : String) : Bool :=
  ["date", "time", "today", "yesterday", "week", "month", "year", "ago", "recent", "latest", "last"].any
    (fun k => pyInStr (specTransformedText question) k)

/-- Spec-side reference definition of the whole enhancement, from spec
section 4.2: the transformed text, with a date-context clause appended
exactly when a temporal keyword occurs in it; the clause states the
reference date in ISO 8601 form (the surrounding clause wording is the
fixed one used by the code). -/
def specEnhance (question : String) (referenceDate : Date) : String :=
  if specNeedsDateClause question then
    specTransformedText question ++ ". (Current date is " ++ referenceDate.isoformat ++ ")"
  else
    specTransformedText question

/-- QueryMetrics from metrics.py: metrics for a single query execution.
The latency is a nonnegative integer of milliseconds (the orchestrator
produces it as int of a nonnegative float). -/
structure QueryMetrics where
  trace_id : String
  timestamp : String
  user_query : String
  enhanced_query : String
  generated_sql : String
  status : String
  error_message : Option String
  total_latency_ms : Nat
  row_count : Nat
deriving DecidableEq

/-- Pointwise update of a status tally, modelling one increment or
decrement of the collections.defaultdict(int) used by MetricsCollector. -/
def bumpCount (f : String → Int) (s : String) (d : Int) : String → Int :=
  fun t => if t = s then f t + d else f t

/-- MetricsCollector state from metrics.py: the ordered list of retained
QueryMetrics, the capacity, and the per-status tally (defaultdict(int),
modelled as a total function defaulting to 0). -/
structure MetricsCollector where
  queries : List QueryMetrics
  maxQueries : Nat
  counts : String → Int

/-- The state built by MetricsCollector.__init__: empty list, capacity 100,
all tallies zero. -/
def MetricsCollector.init : MetricsCollector :=
  { queries := [], maxQueries := 100, counts := fun _ => 0 }

/-- MetricsCollector.record_query: append the entry, increment the tally of
its status, and if the list now exceeds capacity, pop the oldest entry and
decrement the tally of its status. -/
def MetricsCollector.record_query (c : MetricsCollector) (m : QueryMetrics) : MetricsCollector :=
  if c.maxQueries < (c.queries ++ [m]).length then
    { queries := (c.queries ++ [m]).tail
      maxQueries := c.maxQueries
      counts :=
        match (c.queries ++ [m]).head? with
        | some removed => bumpCount (bumpCount c.counts m.status 1) removed.status (-1)
        | none => bumpCount c.counts m.status 1 }
  else
    { queries := c.queries ++ [m]
      maxQueries := c.maxQueries
      counts := bumpCount c.counts m.status 1 }

/-- Python list slice xs[-k:].  For k greater than 0 this is the suffix of
the last k elements (all of xs when k exceeds its length); for k = 0 the
slice xs[-0:] is xs[0:], the whole list. -/
def pyTailSlice (xs : List α) (k : Nat) : List α :=
  if k = 0 then xs else xs.rtake k

/-- MetricsCollector.get_recent_queries: the slice queries[-limit:] in
reversed order (most recent first).  The per-entry to_dict conversion is a
field-for-field copy of the dataclass and is dropped from the embedding. -/
def MetricsCollector.get_recent_queries (c : MetricsCollector) (limit : Nat) : List QueryMetrics :=
  (pyTailSlice c.queries limit).reverse

/-- Summary returned by MetricsCollector.get_summary.  The success_rate
field is a float percentage and is not modelled; no claim refers to it. -/
structure Summary where
  total : Nat
  success : Int
  error : Int
  avg_latency_ms : Nat
deriving DecidableEq

/-- MetricsCollector.get_summary: length of the retained window, the two
tally reads with default 0, and the integer-truncated mean latency (the
latencies are nonnegative, so Python int of the float quotient is floor
division). -/
def MetricsCollector.get_summary (c : MetricsCollector) : Summary :=
  let total := c.queries.length
  let latencySum := (c.queries.map (fun q => q.total_latency_ms)).sum
  { total := total
    success := c.counts "success"
    error := c.counts "error"
    avg_latency_ms := if 0 < total then latencySum / total else 0 }

/-- MetricsCollector.get_query_by_trace_id: linear scan of the retained
window from the oldest entry, returning the first entry with the given
trace id, or none. -/
def MetricsCollector.get_query_by_trace_id (c : MetricsCollector) (tid : String) : Option QueryMetrics :=
  c.queries.find? (fun q => q.trace_id == tid)

/-- Python exception value: the class name (type(exc).__name__) and the
message (str(exc)). -/
structure PyExc where
  ty : String
  msg : String
deriving DecidableEq

/-- Python value passed as a keyword argument to log_event: either a value
json.dumps can serialize, or an object of a type it cannot. -/
inductive PyObj where
  | jsonVal (rendering : String)
  | unserializable (typeName : String)
deriving DecidableEq

/-- Whether json.dumps accepts the value. -/
def PyObj.isJsonSerializable : PyObj → Bool
  | .jsonVal _ => true
  | .unserializable _ => false

/-- The structured record emitted by logger.log_event: trace id read from
the context, step, level, and the caller-supplied fields. -/
structure LogRecord where
  trace_id : Option String
  step : String
  level : String
  fields : List (String × PyObj)
deriving DecidableEq

/-- tracer.set_trace_id: store the id in the context variable. -/
def set_trace_id (_ctx : Option String) (tid : String) : Option String :=
  some tid

/-- tracer.get_trace_id: read the context variable. -/
def get_trace_id (ctx : Option String) : Option String :=
  ctx

/-- logger.log_event.  It builds the record dict, serializes it with
json.dumps, and hands the string to the logging handler.  json.dumps raises
TypeError when some supplied value is not JSON-serializable, and log_event
has no try or except around it, so that error propagates to the caller; the
logging handler swallows its own emission errors (stdlib behavior), so
emission is modelled as always succeeding. -/
def log_event (ctx : Option String) (step : String) (level : String)
    (kwargs : List (String × PyObj)) : Except PyExc LogRecord :=
  if kwargs.all (fun f => f.2.isJsonSerializable) then
    .ok { trace_id := get_trace_id ctx, step := step, level := level, fields := kwargs }
  else
    .error { ty := "TypeError", msg := "Object is not JSON serializable" }

/-- Result dict returned by CortexClient.generate_sql_and_results, reduced
to the keys the orchestrator reads; rows are atomic values here. -/
structure CortexResult where
  generated_sql : String
  rows : List String
  table_schema : String
deriving DecidableEq

/-- Result dict returned by Orchestrator.run on success. -/
structure RunResult where
  enhanced_query : String
  generated_sql : String
  rows : List String
  table_schema : String
  trace_id : String
deriving DecidableEq

/-- Pipeline view of one emitted log event: step, level, and the trace id
the logger read from the context at emission time.  The orchestrator only
passes strings and integers as extra fields, all JSON-serializable, so its
log_event calls never fail and the extra fields are not tracked here. -/
structure OrchEvent where
  step : String
  level : String
  trace_id : Option String
deriving DecidableEq

/-- Mutable state touched by one pipeline run: the process-global metrics
collector singleton, the trace context variable, the emitted log events,
and an instrumentation counter of generation-client invocations. -/
structure PipelineState where
  collector : MetricsCollector
  traceCtx : Option String
  events : List OrchEvent
  clientCalls : Nat

/-- Append one log event, stamping the trace id currently in the context. -/
def PipelineState.emit (st : PipelineState) (step level : String) : PipelineState :=
  { st with events := st.events ++ [{ step := step, level := level, trace_id := get_trace_id st.traceCtx }] }

/-- Orchestrator from orchestrator.py: holds the generation client, whose
generate_sql_and_results either returns a result dict or raises. -/
structure Orchestrator where
  client : String → Except PyExc CortexResult

/-- Orchestrator.run.  Clock reads are explicit parameters: today is the
reference date read by enhance_query, latencyMs the elapsed wall-clock
milliseconds, nowIso the datetime.now().isoformat() timestamp.  An empty
question (after strip) raises ValueError before the try block, so the state
is returned untouched.  Otherwise the pipeline emits query_start, the Timer
event enhance_completed, enhanced, then calls the client; the Timer event
cortex_total_completed is emitted on both outcomes (the with-block exit
runs before the except clause), followed by query_success or query_error;
the finally block always records exactly one QueryMetrics; a client error
is re-raised unchanged after recording. -/
def Orchestrator.run (o : Orchestrator) (user_query trace_id : String) (today : Date)
    (latencyMs : Nat) (nowIso : String) (st : PipelineState) :
    PipelineState × Except PyExc RunResult :=
  if pyStrip user_query = "" then
    (st, .error { ty := "ValueError", msg := "Query cannot be empty." })
  else
    let enhanced := enhance_query user_query today
    let st1 := (((st.emit "query_start" "INFO").emit
      "enhance_completed" "INFO").emit "enhanced" "INFO")
    let st2 := { st1 with clientCalls := st1.clientCalls + 1 }
    match o.client enhanced with
    | .ok res =>
        let st3 := (st2.emit "cortex_total_completed" "INFO").emit "query_success" "INFO"
        let m : QueryMetrics :=
          { trace_id := trace_id, timestamp := nowIso, user_query := user_query
            enhanced_query := enhanced, generated_sql := res.generated_sql
            status := "success", error_message := none
            total_latency_ms := latencyMs, row_count := res.rows.length }
        let st4 := { st3 with collector := st3.collector.record_query m }
        (st4, .ok { enhanced_query := enhanced, generated_sql := res.generated_sql
                    rows := res.rows, table_schema := res.table_schema, trace_id := trace_id })
    | .error exc =>
        let st3 := (st2.emit "cortex_total_completed" "INFO").emit "query_error" "ERROR"
        let m : QueryMetrics :=
          { trace_id := trace_id, timestamp := nowIso, user_query := user_query
            enhanced_query := enhanced, generated_sql := ""
            status := "error", error_message := some exc.msg
            total_latency_ms := latencyMs, row_count := 0 }
        let st4 := { st3 with collector := st3.collector.record_query m }
        (st4, .error exc)

/-- Folding record_query over a list of entries, starting from the freshly
fresh collector: the reachable collector states. -/
def recordAll (ms : List QueryMetrics) : MetricsCollector :=
  ms.foldl MetricsCollector.record_query MetricsCollector.init

theorem length_rtake (l : List α) (n : Nat) : (l.rtake n).length = min n l.length := by
  simp only [List.rtake, List.length_drop]
  omega

theorem rtake_of_length_le (l : List α) (n : Nat) (h : l.length ≤ n) : l.rtake n = l := by
  have hz : l.length - n = 0 := by omega
  simp [List.rtake, hz]

theorem rtake_append_of_le (pre s : List α) (n : Nat) (h : n ≤ s.length) :
    (pre ++ s).rtake n = s.rtake n := by
  have hlen : (pre ++ s).length - n = pre.length + (s.length - n) := by
    simp only [List.length_append]
    omega
  simp only [List.rtake, hlen]
  rw [← List.drop_drop, List.drop_left]

theorem rtake_append_rtake (l r : List α) (n : Nat) :
    (l.rtake n ++ r).rtake n = (l ++ r).rtake n := by
  by_cases h : l.length ≤ n
  · rw [rtake_of_length_le l n h]
  · have hn : n ≤ l.length := by omega
    have hsplit : l = l.take (l.length - n) ++ l.rtake n := (List.take_append_drop _ l).symm
    have hlen : (l.rtake n).length = n := by rw [length_rtake]; omega
    calc (l.rtake n ++ r).rtake n
        = (l.take (l.length - n) ++ (l.rtake n ++ r)).rtake n :=
          (rtake_append_of_le (l.take (l.length - n)) (l.rtake n ++ r) n
            (by rw [List.length_append, hlen]; omega)).symm
      _ = (l ++ r).rtake n := by rw [← List.append_assoc, ← hsplit]

theorem record_query_queries (c : MetricsCollector) (m : QueryMetrics)
    (h : c.queries.length ≤ c.maxQueries) :
    (c.record_query m).queries = (c.queries ++ [m]).rtake c.maxQueries := by
  unfold MetricsCollector.record_query
  by_cases hlt : c.maxQueries < (c.queries ++ [m]).length
  · rw [if_pos hlt]
    have hdrop : (c.queries ++ [m]).length - c.maxQueries = 1 := by
      simp only [List.length_append, List.length_singleton] at hlt ⊢
      omega
    show (c.queries ++ [m]).tail = _
    rw [List.rtake, hdrop, List.drop_one]
  · rw [if_neg hlt]
    have hz : (c.queries ++ [m]).length - c.maxQueries = 0 := by omega
    show c.queries ++ [m] = _
    rw [List.rtake, hz, List.drop_zero]

theorem record_query_maxQueries (c : MetricsCollector) (m : QueryMetrics) :
    (c.record_query m).maxQueries = c.maxQueries := by
  unfold MetricsCollector.record_query
  by_cases hlt : c.maxQueries < (c.queries ++ [m]).length
  · rw [if_pos hlt]
  · rw [if_neg hlt]

theorem record_query_length_le (c : MetricsCollector) (m : QueryMetrics)
    (h : c.queries.length ≤ c.maxQueries) :
    (c.record_query m).queries.length ≤ (c.record_query m).maxQueries := by
  rw [record_query_queries c m h, record_query_maxQueries, length_rtake]
  omega

theorem foldl_record_query (ms : List QueryMetrics) :
    ∀ c : MetricsCollector, c.queries.length ≤ c.maxQueries →
      (ms.foldl MetricsCollector.record_query c).queries = (c.queries ++ ms).rtake c.maxQueries ∧
      (ms.foldl MetricsCollector.record_query c).maxQueries = c.maxQueries := by
  induction ms with
  | nil =>
    intro c h
    simp [List.foldl_nil, rtake_of_length_le _ _ h]
  | cons m ms ih =>
    intro c h
    have hstep := record_query_queries c m h
    have hmax := record_query_maxQueries c m
    have hle := record_query_length_le c m h
    obtain ⟨ih1, ih2⟩ := ih (c.record_query m) hle
    constructor
    · rw [List.foldl_cons, ih1, hstep, hmax, rtake_append_rtake]
      simp
    · rw [List.foldl_cons, ih2, hmax]

theorem recordAll_queries (ms : List QueryMetrics) :
    (recordAll ms).queries = ms.rtake 100 := by
  have h := foldl_record_query ms MetricsCollector.init (by simp [MetricsCollector.init])
  simpa [recordAll, MetricsCollector.init] using h.1

theorem recordAll_maxQueries (ms : List QueryMetrics) :
    (recordAll ms).maxQueries = 100 := by
  have h := foldl_record_query ms MetricsCollector.init (by simp [MetricsCollector.init])
  simpa [recordAll, MetricsCollector.init] using h.2

/-- The tally invariant: every per-status count equals the number of
retained entries with that status. -/
def countsMatch (c : MetricsCollector) : Prop :=
  ∀ s : String, c.counts s = ((c.queries.filter (fun q => q.status == s)).length : Int)

theorem countsMatch_init : countsMatch MetricsCollector.init := by
  intro s
  simp [MetricsCollector.init]

theorem countsMatch_record_query (c : MetricsCollector) (m : QueryMetrics)
    (hc : countsMatch c) : countsMatch (c.record_query m) := by
  intro s
  have hbump : ∀ (f : String → Int) (x : String) (d : Int),
      bumpCount f x d s = f s + (if x = s then d else 0) := by
    intro f x d
    by_cases hx : s = x
    · subst hx
      simp [bumpCount]
    · have hx2 : ¬(x = s) := fun hh => hx hh.symm
      simp [bumpCount, hx, hx2]
  have hcs := hc s
  have happ : ((c.queries ++ [m]).filter (fun q => q.status == s)).length =
      (c.queries.filter (fun q => q.status == s)).length + (if m.status = s then 1 else 0) := by
    by_cases hm : m.status = s <;> simp [List.filter_append, List.filter_cons, hm]
  unfold MetricsCollector.record_query
  by_cases hlt : c.maxQueries < (c.queries ++ [m]).length
  · rw [if_pos hlt]
    cases hq : c.queries ++ [m] with
    | nil => simp at hq
    | cons a t =>
      have hlena : ((a :: t).filter (fun q => q.status == s)).length =
          (if a.status = s then 1 else 0) + (t.filter (fun q => q.status == s)).length := by
        by_cases ha : a.status = s <;> simp [List.filter_cons, ha] <;> omega
      rw [hq, hlena] at happ
      simp only [List.head?_cons, List.tail_cons, hbump]
      split_ifs at happ ⊢ <;> omega
  · rw [if_neg hlt]
    show bumpCount c.counts m.status 1 s = _
    rw [hbump, happ]
    split_ifs <;> push_cast <;> omega

theorem countsMatch_foldl (ms : List QueryMetrics) :
    ∀ c : MetricsCollector, countsMatch c →
      countsMatch (ms.foldl MetricsCollector.record_query c) := by
  induction ms with
  | nil => intro c hc; simpa using hc
  | cons m ms ih => intro c hc; exact ih _ (countsMatch_record_query c m hc)

theorem countsMatch_recordAll (ms : List QueryMetrics) : countsMatch (recordAll ms) :=
  countsMatch_foldl ms _ countsMatch_init

theorem get_summary_total (c : MetricsCollector) :
    c.get_summary.total = c.queries.length := rfl

theorem get_summary_success (c : MetricsCollector) :
    c.get_summary.success = c.counts "success" := rfl

theorem get_summary_error (c : MetricsCollector) :
    c.get_summary.error = c.counts "error" := rfl

theorem filter_status_lengths_le (l : List QueryMetrics) (s1 s2 : String) (hne : s1 ≠ s2) :
    (l.filter (fun q => q.status == s1)).length + (l.filter (fun q => q.status == s2)).length
      ≤ l.length := by
  induction l with
  | nil => simp
  | cons a t ih =>
    rw [List.filter_cons, List.filter_cons]
    by_cases h1 : a.status = s1
    · have h2 : ¬(a.status = s2) := by rw [h1]; exact hne
      have b1 : (a.status == s1) = true := by simp [h1]
      have b2 : (a.status == s2) = false := by simp [h2]
      simp [b1, b2]
      omega
    · have b1 : (a.status == s1) = false := by simp [h1]
      by_cases h2 : a.status = s2
      · have b2 : (a.status == s2) = true := by simp [h2]
        simp [b1, b2]
        omega
      · have b2 : (a.status == s2) = false := by simp [h2]
        simp [b1, b2]
        omega

theorem filter_status_partition (l : List QueryMetrics)
    (h : ∀ q ∈ l, q.status = "success" ∨ q.status = "error") :
    (l.filter (fun q => q.status == "success")).length +
      (l.filter (fun q => q.status == "error")).length = l.length := by
  induction l with
  | nil => simp
  | cons a t ih =>
    have ha := h a (List.mem_cons_self a t)
    have ht : ∀ q ∈ t, q.status = "success" ∨ q.status = "error" :=
      fun q hq => h q (List.mem_cons_of_mem a hq)
    have hih := ih ht
    have hne : ("success" : String) ≠ "error" := by decide
    rw [List.filter_cons, List.filter_cons]
    rcases ha with ha | ha
    · have h2 : ¬(a.status = "error") := by rw [ha]; exact hne
      have b1 : (a.status == "success") = true := by simp [ha]
      have b2 : (a.status == "error") = false := by simp [h2]
      simp [b1, b2]
      omega
    · have h2 : ¬(a.status = "success") := by
        rw [ha]; exact fun hh => hne hh.symm
      have b1 : (a.status == "success") = false := by simp [h2]
      have b2 : (a.status == "error") = true := by simp [ha]
      simp [b1, b2]
      omega

/-- Sample successful query metrics used in concrete witnesses. -/
def sampleSuccess : QueryMetrics :=
  { trace_id := "trace-a", timestamp := "2024-01-15T10:00:00", user_query := "show revenue"
    enhanced_query := "show revenue", generated_sql := "SELECT 1", status := "success"
    error_message := none, total_latency_ms := 12, row_count := 3 }

/-- Sample failed query metrics used in concrete witnesses. -/
def sampleError : QueryMetrics :=
  { trace_id := "trace-b", timestamp := "2024-01-15T10:01:00", user_query := "show qty"
    enhanced_query := "show quantity", generated_sql := "", status := "error"
    error_message := some "boom", total_latency_ms := 7, row_count := 0 }

/-- Sample metrics whose status is neither success nor error. -/
def samplePending : QueryMetrics :=
  { trace_id := "trace-c", timestamp := "2024-01-15T10:02:00", user_query := "q"
    enhanced_query := "q", generated_sql := "", status := "pending"
    error_message := none, total_latency_ms := 1, row_count := 0 }

/-- C3: after any sequence of n record calls on a fresh MetricsCollector the
store retains exactly the last min(n, 100) recorded entries in recording
order (the window is the length-min(n,100) suffix of the recorded
sequence, so each eviction removed the oldest entry), and its size never
exceeds 100. -/
theorem C3_bounded_fifo_window (ms : List QueryMetrics) :
    (recordAll ms).queries = ms.rtake 100 ∧
    (recordAll ms).queries.length = min ms.length 100 ∧
    ms.take (ms.length - 100) ++ (recordAll ms).queries = ms := by
  refine ⟨recordAll_queries ms, ?_, ?_⟩
  · rw [recordAll_queries, length_rtake]
    omega
  · rw [recordAll_queries, List.rtake]
    exact List.take_append_drop _ ms

/-- C4: when every recorded entry has status success or error, the summary
of any reachable collector state reports per-status counts that are exactly
the number of retained entries with that status, and they partition the
window: success plus error equals total. -/
theorem C4_summary_tally_consistent (ms : List QueryMetrics)
    (h : ∀ m ∈ ms, m.status = "success" ∨ m.status = "error") :
    (recordAll ms).get_summary.success =
        (((recordAll ms).queries.filter (fun q => q.status == "success")).length : Int) ∧
    (recordAll ms).get_summary.error =
        (((recordAll ms).queries.filter (fun q => q.status == "error")).length : Int) ∧
    (recordAll ms).get_summary.success + (recordAll ms).get_summary.error =
      ((recordAll ms).get_summary.total : Int) := by
  have hcm := countsMatch_recordAll ms
  have hsub : ∀ q ∈ (recordAll ms).queries, q ∈ ms := by
    rw [recordAll_queries, List.rtake]
    intro q hq
    exact List.drop_subset _ ms hq
  refine ⟨hcm "success", hcm "error", ?_⟩
  have hpart := filter_status_partition (recordAll ms).queries (fun q hq => h q (hsub q hq))
  have hsucc := hcm "success"
  have herr := hcm "error"
  show (recordAll ms).counts "success" + (recordAll ms).counts "error" =
    ((recordAll ms).queries.length : Int)
  rw [hsucc, herr, ← hpart]
  push_cast
  ring

/-- C4 witness at a concrete record sequence. -/
theorem C4_summary_tally_consistent_witness :
    (recordAll [sampleSuccess, sampleError, sampleSuccess]).get_summary.success =
        (((recordAll [sampleSuccess, sampleError, sampleSuccess]).queries.filter
          (fun q => q.status == "success")).length : Int) ∧
    (recordAll [sampleSuccess, sampleError, sampleSuccess]).get_summary.error =
        (((recordAll [sampleSuccess, sampleError, sampleSuccess]).queries.filter
          (fun q => q.status == "error")).length : Int) ∧
    (recordAll [sampleSuccess, sampleError, sampleSuccess]).get_summary.success +
        (recordAll [sampleSuccess, sampleError, sampleSuccess]).get_summary.error =
      ((recordAll [sampleSuccess, sampleError, sampleSuccess]).get_summary.total : Int) :=
  C4_summary_tally_consistent [sampleSuccess, sampleError, sampleSuccess] (by decide)

/-- C7 as stated is false at limit zero: the Python slice queries[-0:] is
queries[0:], the whole list, so a store holding one entry returns one entry
although the limit is zero. -/
theorem C7_counterexample :
    ((MetricsCollector.init.record_query sampleSuccess).get_recent_queries 0).length = 1 ∧
    ¬((MetricsCollector.init.record_query sampleSuccess).get_recent_queries 0).length ≤ 0 := by
  constructor
  · rfl
  · decide

/-- C7 amended: for every limit of at least one, get_recent_queries returns
at most limit entries, namely the suffix of most-recently-recorded entries
in most-recent-first order; the function reads the store without mutating
it (it is a pure projection of the state in this embedding). -/
theorem C7_recent_queries_bounded (c : MetricsCollector) (limit : Nat) (h : 1 ≤ limit) :
    (c.get_recent_queries limit).length ≤ limit ∧
    c.get_recent_queries limit = (c.queries.rtake limit).reverse := by
  have hne : limit ≠ 0 := by omega
  unfold MetricsCollector.get_recent_queries pyTailSlice
  rw [if_neg hne]
  refine ⟨?_, rfl⟩
  rw [List.length_reverse, length_rtake]
  omega

/-- C7 witness at a concrete store and limit. -/
theorem C7_recent_queries_bounded_witness :
    (((MetricsCollector.init.record_query sampleSuccess).record_query sampleError).get_recent_queries 1).length ≤ 1 ∧
    ((MetricsCollector.init.record_query sampleSuccess).record_query sampleError).get_recent_queries 1 =
      ((((MetricsCollector.init.record_query sampleSuccess).record_query sampleError).queries.rtake 1)).reverse :=
  C7_recent_queries_bounded
    ((MetricsCollector.init.record_query sampleSuccess).record_query sampleError) 1 (by decide)

/-- C9: get_query_by_trace_id finds an entry with the requested trace id
whenever one is in the retained window (and that entry was previously
recorded), and returns none rather than an error when no retained entry
carries the id. -/
theorem C9_trace_lookup (ms : List QueryMetrics) (tid : String) :
    ((∃ m, m ∈ (recordAll ms).queries ∧ m.trace_id = tid) →
      ∃ m, (recordAll ms).get_query_by_trace_id tid = some m ∧ m.trace_id = tid ∧ m ∈ ms) ∧
    ((∀ m ∈ (recordAll ms).queries, m.trace_id ≠ tid) →
      (recordAll ms).get_query_by_trace_id tid = none) := by
  constructor
  · rintro ⟨m0, hm0, htid⟩
    have hsome : ((recordAll ms).queries.find? (fun q => q.trace_id == tid)).isSome := by
      rw [List.find?_isSome]
      exact ⟨m0, hm0, by simp [htid]⟩
    obtain ⟨m, hm⟩ := Option.isSome_iff_exists.mp hsome
    refine ⟨m, hm, ?_, ?_⟩
    · have hp := List.find?_some hm
      simpa using hp
    · have hmem := List.mem_of_find?_eq_some hm
      rw [recordAll_queries, List.rtake] at hmem
      exact List.drop_subset _ ms hmem
  · intro h
    unfold MetricsCollector.get_query_by_trace_id
    rw [List.find?_eq_none]
    intro x hx
    simp [h x hx]

/-- C9 witness: the entry is found while retained, and an unknown id gives
an absent result. -/
theorem C9_trace_lookup_witness :
    (∃ m, (recordAll [sampleSuccess, sampleError]).get_query_by_trace_id "trace-b" = some m ∧
      m.trace_id = "trace-b" ∧ m ∈ [sampleSuccess, sampleError]) ∧
    (recordAll [sampleSuccess, sampleError]).get_query_by_trace_id "missing" = none :=
  ⟨(C9_trace_lookup [sampleSuccess, sampleError] "trace-b").1 ⟨sampleError, by decide, rfl⟩,
   (C9_trace_lookup [sampleSuccess, sampleError] "missing").2 (by decide)⟩

/-- C10 as stated is false at capacity: with 100 entries retained,
recording an entry with status pending evicts the oldest entry, so the
summary total stays 100 instead of increasing by one. -/
theorem C10_counterexample :
    ¬(((recordAll (List.replicate 100 sampleSuccess)).record_query samplePending).get_summary.total =
        (recordAll (List.replicate 100 sampleSuccess)).get_summary.total + 1) := by
  have hmax := recordAll_maxQueries (List.replicate 100 sampleSuccess)
  have hq := recordAll_queries (List.replicate 100 sampleSuccess)
  have hlen : (recordAll (List.replicate 100 sampleSuccess)).queries.length = 100 := by
    rw [hq, length_rtake, List.length_replicate]
    omega
  have hle : (recordAll (List.replicate 100 sampleSuccess)).queries.length ≤
      (recordAll (List.replicate 100 sampleSuccess)).maxQueries := by
    rw [hlen, hmax]
  have hrec := record_query_queries _ samplePending hle
  have hlen2 : ((recordAll (List.replicate 100 sampleSuccess)).record_query samplePending).queries.length = 100 := by
    rw [hrec, length_rtake, hmax, List.length_append, hlen, List.length_singleton]
    omega
  rw [get_summary_total, get_summary_total, hlen, hlen2]
  omega

/-- C10 amended: below capacity, recording an entry whose status is neither
success nor error increases the summary total by one, leaves the success
and error counts unchanged, and afterwards success plus error is strictly
less than total, so the two counts no longer partition the window. -/
theorem C10_other_status_breaks_partition (ms : List QueryMetrics) (m : QueryMetrics)
    (hs : m.status ≠ "success") (he : m.status ≠ "error")
    (hlen : (recordAll ms).queries.length < 100) :
    ((recordAll ms).record_query m).get_summary.total = (recordAll ms).get_summary.total + 1 ∧
    ((recordAll ms).record_query m).get_summary.success = (recordAll ms).get_summary.success ∧
    ((recordAll ms).record_query m).get_summary.error = (recordAll ms).get_summary.error ∧
    ((recordAll ms).record_query m).get_summary.success +
        ((recordAll ms).record_query m).get_summary.error <
      (((recordAll ms).record_query m).get_summary.total : Int) := by
  have hmax := recordAll_maxQueries ms
  have hnoevict : ¬((recordAll ms).maxQueries < ((recordAll ms).queries ++ [m]).length) := by
    rw [hmax, List.length_append, List.length_singleton]
    omega
  have hrec : (recordAll ms).record_query m =
      { queries := (recordAll ms).queries ++ [m]
        maxQueries := (recordAll ms).maxQueries
        counts := bumpCount (recordAll ms).counts m.status 1 } := by
    unfold MetricsCollector.record_query
    rw [if_neg hnoevict]
  have hsuccBump : bumpCount (recordAll ms).counts m.status 1 "success" =
      (recordAll ms).counts "success" := by
    unfold bumpCount
    rw [if_neg (fun hh => hs hh.symm)]
  have herrBump : bumpCount (recordAll ms).counts m.status 1 "error" =
      (recordAll ms).counts "error" := by
    unfold bumpCount
    rw [if_neg (fun hh => he hh.symm)]
  have hcm := countsMatch_recordAll ms
  have hboundNat := filter_status_lengths_le (recordAll ms).queries "success" "error" (by decide)
  refine ⟨?_, ?_, ?_, ?_⟩
  · show ((recordAll ms).record_query m).queries.length = (recordAll ms).queries.length + 1
    rw [hrec]
    simp
  · show ((recordAll ms).record_query m).counts "success" = (recordAll ms).counts "success"
    rw [hrec]
    exact hsuccBump
  · show ((recordAll ms).record_query m).counts "error" = (recordAll ms).counts "error"
    rw [hrec]
    exact herrBump
  · show ((recordAll ms).record_query m).counts "success" +
        ((recordAll ms).record_query m).counts "error" <
      (((recordAll ms).record_query m).queries.length : Int)
    rw [hrec]
    show bumpCount (recordAll ms).counts m.status 1 "success" +
        bumpCount (recordAll ms).counts m.status 1 "error" <
      ((((recordAll ms).queries ++ [m]).length : Nat) : Int)
    rw [hsuccBump, herrBump, hcm "success", hcm "error", List.length_append,
      List.length_singleton]
    push_cast
    omega

/-- C10 amended witness at a concrete below-capacity store. -/
theorem C10_other_status_breaks_partition_witness :
    ((recordAll [sampleSuccess]).record_query samplePending).get_summary.total =
        (recordAll [sampleSuccess]).get_summary.total + 1 ∧
    ((recordAll [sampleSuccess]).record_query samplePending).get_summary.success =
        (recordAll [sampleSuccess]).get_summary.success ∧
    ((recordAll [sampleSuccess]).record_query samplePending).get_summary.error =
        (recordAll [sampleSuccess]).get_summary.error ∧
    ((recordAll [sampleSuccess]).record_query samplePending).get_summary.success +
        ((recordAll [sampleSuccess]).record_query samplePending).get_summary.error <
      (((recordAll [sampleSuccess]).record_query samplePending).get_summary.total : Int) :=
  C10_other_status_breaks_partition [sampleSuccess] samplePending
    (by decide) (by decide) (by decide)

theorem lookup_abbreviation_eq (token : String) :
    (List.lookup token ABBREVIATIONS).getD token =
      (if token = "rev" then "revenue" else if token = "qty" then "quantity"
       else if token = "avg" then "average" else token) := by
  by_cases h1 : token = "rev"
  · subst h1; rfl
  · by_cases h2 : token = "qty"
    · subst h2; rfl
    · by_cases h3 : token = "avg"
      · subst h3; rfl
      · have b1 : (token == "rev") = false := by simp [h1]
        have b2 : (token == "qty") = false := by simp [h2]
        have b3 : (token == "avg") = false := by simp [h3]
        simp [List.lookup, ABBREVIATIONS, b1, b2, b3, h1, h2, h3]

/-- C5: enhance_query computes exactly the spec pipeline: trim, lowercase,
split on whitespace, expand the abbreviation table, rejoin with single
spaces, then append the ISO-8601 date-context clause exactly when the
transformed text contains a temporal keyword.  Determinism for fixed
inputs is inherent: the function is pure, so equal arguments give the
identical string on every call. -/
theorem C5_enhance_query_matches_spec (q : String) (d : Date) :
    enhance_query q d = specEnhance q d ∧
    (specNeedsDateClause q = true →
      enhance_query q d =
        specTransformedText q ++ ". (Current date is " ++ d.isoformat ++ ")") ∧
    (specNeedsDateClause q = false → enhance_query q d = specTransformedText q) := by
  have hmain : enhance_query q d = specEnhance q d := by
    simp [enhance_query, specEnhance, specTransformedText, specNeedsDateClause,
      lookup_abbreviation_eq]
  refine ⟨hmain, ?_, ?_⟩
  · intro h
    rw [hmain]
    simp [specEnhance, h]
  · intro h
    rw [hmain]
    simp [specEnhance, h]

/-- C5 witness at the end-to-end example of spec section 8. -/
theorem C5_enhance_query_matches_spec_witness :
    specNeedsDateClause "What is the avg qty last week?" = true ∧
    enhance_query "What is the avg qty last week?" ⟨2024, 1, 15⟩ =
      specTransformedText "What is the avg qty last week?" ++ ". (Current date is " ++
        (⟨2024, 1, 15⟩ : Date).isoformat ++ ")" :=
  ⟨by decide,
   (C5_enhance_query_matches_spec "What is the avg qty last week?" ⟨2024, 1, 15⟩).2.1 (by decide)⟩

/-- C8 as stated is false on the code: log_event wraps nothing in a
try-except, so the TypeError json.dumps raises for a non-JSON-serializable
caller-supplied field propagates to the caller instead of being
swallowed. -/
theorem C8_counterexample :
    log_event none "query_start" "INFO" [("session", PyObj.unserializable "Session")] =
      Except.error { ty := "TypeError", msg := "Object is not JSON serializable" } := rfl

/-- C8 amended: log_event returns normally, never raising, provided every
caller-supplied field value is JSON-serializable (emission failures are
swallowed by the logging framework); a non-serializable field makes the
json.dumps TypeError propagate. -/
theorem C8_serializable_fields_never_raise (ctx : Option String) (step level : String)
    (kwargs : List (String × PyObj)) (h : ∀ f ∈ kwargs, f.2.isJsonSerializable = true) :
    log_event ctx step level kwargs =
      Except.ok { trace_id := get_trace_id ctx, step := step, level := level, fields := kwargs } := by
  unfold log_event
  rw [if_pos]
  exact List.all_eq_true.mpr h

/-- C8 amended witness at a concrete serializable call. -/
theorem C8_serializable_fields_never_raise_witness :
    log_event (some "t1") "query_start" "INFO" [("row_count", PyObj.jsonVal "3")] =
      Except.ok { trace_id := some "t1", step := "query_start", level := "INFO"
                  fields := [("row_count", PyObj.jsonVal "3")] } :=
  C8_serializable_fields_never_raise (some "t1") "query_start" "INFO"
    [("row_count", PyObj.jsonVal "3")] (by decide)

/-- Stub generation client that always succeeds. -/
def clientStub : Orchestrator :=
  ⟨fun _ => Except.ok { generated_sql := "SELECT 1", rows := ["row1"], table_schema := "T" }⟩

/-- Stub generation client that always raises a CortexClientError. -/
def clientFail : Orchestrator :=
  ⟨fun _ => Except.error { ty := "CortexClientError"
                           msg := "Cortex Analyst returned an empty response." }⟩

/-- Fresh pipeline state with an unbound trace context. -/
def st0 : PipelineState :=
  { collector := MetricsCollector.init, traceCtx := none, events := [], clientCalls := 0 }

/-- Pipeline state in which the caller has already bound a trace id, as
streamlit_app does before invoking the orchestrator. -/
def stBound : PipelineState :=
  { collector := MetricsCollector.init, traceCtx := some "caller-bound", events := []
    clientCalls := 0 }

/-- C2: a question that is empty after trimming makes run raise ValueError
with the precondition message before the pipeline starts: the whole state,
in particular the metrics store, is unchanged, and the client-invocation
counter shows the generation client was never called. -/
theorem C2_empty_query_rejected (o : Orchestrator) (q tid : String) (d : Date)
    (lat : Nat) (now : String) (st : PipelineState) (h : pyStrip q = "") :
    Orchestrator.run o q tid d lat now st =
      (st, Except.error { ty := "ValueError", msg := "Query cannot be empty." }) ∧
    (Orchestrator.run o q tid d lat now st).1.collector = st.collector ∧
    (Orchestrator.run o q tid d lat now st).1.clientCalls = st.clientCalls := by
  have hmain : Orchestrator.run o q tid d lat now st =
      (st, Except.error { ty := "ValueError", msg := "Query cannot be empty." }) := by
    unfold Orchestrator.run
    rw [if_pos h]
  exact ⟨hmain, by rw [hmain], by rw [hmain]⟩

/-- C2 witness at a whitespace-only question. -/
theorem C2_empty_query_rejected_witness :
    Orchestrator.run clientStub "   " "t1" ⟨2024, 1, 15⟩ 5 "2024-01-15T10:00:00" st0 =
      (st0, Except.error { ty := "ValueError", msg := "Query cannot be empty." }) ∧
    (Orchestrator.run clientStub "   " "t1" ⟨2024, 1, 15⟩ 5 "2024-01-15T10:00:00" st0).1.collector =
      st0.collector ∧
    (Orchestrator.run clientStub "   " "t1" ⟨2024, 1, 15⟩ 5 "2024-01-15T10:00:00" st0).1.clientCalls =
      st0.clientCalls :=
  C2_empty_query_rejected clientStub "   " "t1" ⟨2024, 1, 15⟩ 5 "2024-01-15T10:00:00" st0 (by decide)

/-- C1: for a non-blank question, run applies record_query exactly once to
the collector on every exit path; on client success the recorded entry has
status success, on a client error the entry has status error and carries
the captured message, the record is part of the returned state before the
error reaches the caller, and the error value is re-raised to the caller
unchanged. -/
theorem C1_exactly_one_metric (o : Orchestrator) (q tid : String) (d : Date)
    (lat : Nat) (now : String) (st : PipelineState) (h : ¬pyStrip q = "") :
    ∃ m : QueryMetrics,
      (Orchestrator.run o q tid d lat now st).1.collector = st.collector.record_query m ∧
      m.trace_id = tid ∧ m.user_query = q ∧
      (∀ res, o.client (enhance_query q d) = Except.ok res →
        m.status = "success" ∧ m.error_message = none ∧
        (Orchestrator.run o q tid d lat now st).2 = Except.ok
          { enhanced_query := enhance_query q d, generated_sql := res.generated_sql
            rows := res.rows, table_schema := res.table_schema, trace_id := tid }) ∧
      (∀ exc, o.client (enhance_query q d) = Except.error exc →
        m.status = "error" ∧ m.error_message = some exc.msg ∧
        (Orchestrator.run o q tid d lat now st).2 = Except.error exc) := by
  simp only [Orchestrator.run]
  rw [if_neg h]
  cases hc : o.client (enhance_query q d) with
  | ok res =>
    refine ⟨{ trace_id := tid, timestamp := now, user_query := q
              enhanced_query := enhance_query q d, generated_sql := res.generated_sql
              status := "success", error_message := none
              total_latency_ms := lat, row_count := res.rows.length }, rfl, rfl, rfl, ?_, ?_⟩
    · intro res2 hres2
      injection hres2 with h2
      subst h2
      exact ⟨rfl, rfl, rfl⟩
    · intro exc hexc
      exact Except.noConfusion hexc
  | error exc =>
    refine ⟨{ trace_id := tid, timestamp := now, user_query := q
              enhanced_query := enhance_query q d, generated_sql := ""
              status := "error", error_message := some exc.msg
              total_latency_ms := lat, row_count := 0 }, rfl, rfl, rfl, ?_, ?_⟩
    · intro res2 hres2
      exact Except.noConfusion hres2
    · intro exc2 hexc2
      injection hexc2 with h2
      subst h2
      exact ⟨rfl, rfl, rfl⟩

/-- C1 witness at a concrete failing client: the error entry is recorded
and the error re-raised. -/
theorem C1_exactly_one_metric_witness :
    ∃ m : QueryMetrics,
      (Orchestrator.run clientFail "hello" "t1" ⟨2024, 1, 15⟩ 5 "2024-01-15T10:00:00" st0).1.collector =
        st0.collector.record_query m ∧
      m.trace_id = "t1" ∧ m.user_query = "hello" ∧
      (∀ res, clientFail.client (enhance_query "hello" ⟨2024, 1, 15⟩) = Except.ok res →
        m.status = "success" ∧ m.error_message = none ∧
        (Orchestrator.run clientFail "hello" "t1" ⟨2024, 1, 15⟩ 5 "2024-01-15T10:00:00" st0).2 =
          Except.ok { enhanced_query := enhance_query "hello" ⟨2024, 1, 15⟩
                      generated_sql := res.generated_sql, rows := res.rows
                      table_schema := res.table_schema, trace_id := "t1" }) ∧
      (∀ exc, clientFail.client (enhance_query "hello" ⟨2024, 1, 15⟩) = Except.error exc →
        m.status = "error" ∧ m.error_message = some exc.msg ∧
        (Orchestrator.run clientFail "hello" "t1" ⟨2024, 1, 15⟩ 5 "2024-01-15T10:00:00" st0).2 =
          Except.error exc) :=
  C1_exactly_one_metric clientFail "hello" "t1" ⟨2024, 1, 15⟩ 5 "2024-01-15T10:00:00" st0 (by decide)

/-- C6 as stated is false on the code: run never calls set_trace_id, so at
a concrete invocation whose caller bound a different identifier, the trace
context still holds the old value and the query_start log event does not
carry the identifier supplied to run. -/
theorem C6_counterexample :
    (Orchestrator.run clientStub "hello" "t1" ⟨2024, 1, 15⟩ 5 "2024-01-15T10:00:00" stBound).1.traceCtx ≠
      some "t1" ∧
    ∃ ev ∈ (Orchestrator.run clientStub "hello" "t1" ⟨2024, 1, 15⟩ 5
        "2024-01-15T10:00:00" stBound).1.events,
      ev.step = "query_start" ∧ ev.trace_id ≠ some "t1" := by
  decide

/-- C6 amended: run leaves the trace context exactly as the caller bound it
and never rebinds it; every log event emitted during the run carries the
context value read at emission time, so when the caller has already bound
the supplied identifier (as streamlit_app does via set_trace_id before
calling run), the context reads that identifier throughout and every
emitted event carries it. -/
theorem C6_trace_id_caller_bound (o : Orchestrator) (q tid : String) (d : Date)
    (lat : Nat) (now : String) (st : PipelineState) (h : st.traceCtx = some tid) :
    (Orchestrator.run o q tid d lat now st).1.traceCtx = some tid ∧
    ∀ ev ∈ (Orchestrator.run o q tid d lat now st).1.events,
      ev ∈ st.events ∨ ev.trace_id = some tid := by
  simp only [Orchestrator.run]
  by_cases hq : pyStrip q = ""
  · rw [if_pos hq]
    exact ⟨h, fun ev hev => Or.inl hev⟩
  · rw [if_neg hq]
    cases hc : o.client (enhance_query q d) with
    | ok res =>
      refine ⟨h, ?_⟩
      intro ev hev
      have hev2 : ev ∈ st.events ++
          [{ step := "query_start", level := "INFO", trace_id := get_trace_id st.traceCtx }] ++
          [{ step := "enhance_completed", level := "INFO"
             trace_id := get_trace_id st.traceCtx }] ++
          [{ step := "enhanced", level := "INFO", trace_id := get_trace_id st.traceCtx }] ++
          [{ step := "cortex_total_completed", level := "INFO"
             trace_id := get_trace_id st.traceCtx }] ++
          [{ step := "query_success", level := "INFO"
             trace_id := get_trace_id st.traceCtx }] := hev
      simp only [List.mem_append, List.mem_singleton] at hev2
      rcases hev2 with ((((hmem | hevq) | hevq) | hevq) | hevq) | hevq
      · exact Or.inl hmem
      all_goals
        subst hevq
        exact Or.inr h
    | error exc =>
      refine ⟨h, ?_⟩
      intro ev hev
      have hev2 : ev ∈ st.events ++
          [{ step := "query_start", level := "INFO", trace_id := get_trace_id st.traceCtx }] ++
          [{ step := "enhance_completed", level := "INFO"
             trace_id := get_trace_id st.traceCtx }] ++
          [{ step := "enhanced", level := "INFO", trace_id := get_trace_id st.traceCtx }] ++
          [{ step := "cortex_total_completed", level := "INFO"
             trace_id := get_trace_id st.traceCtx }] ++
          [{ step := "query_error", level := "ERROR"
             trace_id := get_trace_id st.traceCtx }] := hev
      simp only [List.mem_append, List.mem_singleton] at hev2
      rcases hev2 with ((((hmem | hevq) | hevq) | hevq) | hevq) | hevq
      · exact Or.inl hmem
      all_goals
        subst hevq
        exact Or.inr h

/-- C6 amended witness at a concrete caller-bound state. -/
theorem C6_trace_id_caller_bound_witness :
    (Orchestrator.run clientStub "hello" "caller-bound" ⟨2024, 1, 15⟩ 5
        "2024-01-15T10:00:00" stBound).1.traceCtx = some "caller-bound" ∧
    ∀ ev ∈ (Orchestrator.run clientStub "hello" "caller-bound" ⟨2024, 1, 15⟩ 5
        "2024-01-15T10:00:00" stBound).1.events,
      ev ∈ stBound.events ∨ ev.trace_id = some "caller-bound" :=
  C6_trace_id_caller_bound clientStub "hello" "caller-bound" ⟨2024, 1, 15⟩ 5
    "2024-01-15T10:00:00" stBound rfl
